import Mathlib

/-!
Shallow embedding of `src/gio/gfileenumerator.c` (the GFileEnumerator
session state machine and its default thread-offloaded async batch and
close implementations).

Modelling conventions:

* The private session state (`struct _GFileEnumeratorPrivate`) becomes the
  record `EnumState` with the `closed` and `pending` bits and the
  `outstanding_error` slot.  The `outstanding_callback` field only stores
  the completion callback; it carries no protocol state and is not
  modelled.
* `GError` values are a `(domain, code)` pair of opaque numeric
  identifiers; the code only ever compares them for equality.
* The backend (the `GFileEnumeratorClass` virtual methods `next_file` and
  `close`) is an external capability: each model function takes the
  outcome(s) the backend would produce as explicit parameters.  For the
  batch worker, which calls `next_file` once per iteration, the backend is
  a function from the iteration index to an outcome, and the cooperative
  cancellation check `g_cancellable_set_error_if_cancelled` is a function
  from the iteration index to a boolean.
* `GSimpleAsyncResult` (defined in `gsimpleasyncresult.c`, outside this
  source tree) is modelled from the spec as a passive record carrying the
  source tag, an optional error, and the batch payload; completions
  scheduled through `g_simple_async_result_complete_in_idle` /
  `g_simple_async_report_error_in_idle` are represented by the
  `AsyncIssue.idleCompletion` constructor, meaning the completion is
  delivered later (never inline in the issuing call), and
  `g_simple_async_result_run_in_thread` is modelled as running the job and
  delivering the job's result unchanged.
* Each model function returns both the visible result and the updated
  session state, plus a `backendInvoked` flag where a claim needs to speak
  about whether the backend was delegated to.
-/

/-- One `GError`: an error domain quark together with an error code.  The
numeric values are opaque identifiers; the source only ever compares them
(`error->domain == G_IO_ERROR && error->code == G_IO_ERROR_CANCELLED`). -/
structure GError where
  domain : Nat
  code : Nat
deriving DecidableEq

/-- The `G_IO_ERROR` error domain quark (opaque identifier). -/
def G_IO_ERROR : Nat := 1

/-- The `G_IO_ERROR_CLOSED` code from `GIOErrorEnum` (opaque identifier). -/
def G_IO_ERROR_CLOSED : Nat := 18

/-- The `G_IO_ERROR_CANCELLED` code from `GIOErrorEnum` (opaque identifier). -/
def G_IO_ERROR_CANCELLED : Nat := 19

/-- The `G_IO_ERROR_PENDING` code from `GIOErrorEnum` (opaque identifier). -/
def G_IO_ERROR_PENDING : Nat := 20

/-- The error raised by the guards `g_set_error (error, G_IO_ERROR,
G_IO_ERROR_CLOSED, ...)` in `gfileenumerator.c`. -/
def closedError : GError := ⟨G_IO_ERROR, G_IO_ERROR_CLOSED⟩

/-- The error raised by the guards `g_set_error (error, G_IO_ERROR,
G_IO_ERROR_PENDING, ...)` in `gfileenumerator.c`. -/
def pendingError : GError := ⟨G_IO_ERROR, G_IO_ERROR_PENDING⟩

/-- The error produced by `g_cancellable_set_error_if_cancelled` when the
cancellable is cancelled. -/
def cancelledError : GError := ⟨G_IO_ERROR, G_IO_ERROR_CANCELLED⟩

/-- Entries (`GFileInfo` pointers) are opaque values; only their identity
matters to the enumerator core. -/
abbrev Entry := Nat

/-- The session state `struct _GFileEnumeratorPrivate`: the `closed` and
`pending` bit fields and the deferred-error slot `outstanding_error`. -/
structure EnumState where
  closed : Bool
  pending : Bool
  outstanding_error : Option GError
deriving DecidableEq

/-- Outcome of one call of the backend `next_file` virtual method: a
`GFileInfo` entry, `NULL` with no error (end of enumeration), or `NULL`
with `*error` set. -/
inductive NextFileResult where
  | entry (info : Entry)
  | endOfEnum
  | err (e : GError)
deriving DecidableEq

/-- Result of one `g_file_enumerator_next_file` call: the returned
`GFileInfo` (or `NULL`), the caller's error location, the session state
after the call, and whether the backend `next_file` was delegated to. -/
structure NextFileCall where
  info : Option Entry
  err : Option GError
  state : EnumState
  backendInvoked : Bool
deriving DecidableEq

/-- `g_file_enumerator_next_file` (gfileenumerator.c lines 117-162):
guards on `closed` and `pending`, then surfaces and clears
`outstanding_error` if present, otherwise sets `pending`, delegates to the
backend `next_file`, clears `pending` and returns the backend's result
unchanged.  The ambient cancellable push/pop around the backend call
carries no session state and is not modelled. -/
def g_file_enumerator_next_file (st : EnumState) (backendNext : NextFileResult) :
    NextFileCall :=
  if st.closed then ⟨none, some closedError, st, false⟩
  else if st.pending then ⟨none, some pendingError, st, false⟩
  else
    match st.outstanding_error with
    | some e => ⟨none, some e, ⟨st.closed, st.pending, none⟩, false⟩
    | none =>
      match backendNext with
      | .entry x => ⟨some x, none, ⟨st.closed, false, none⟩, true⟩
      | .endOfEnum => ⟨none, none, ⟨st.closed, false, none⟩, true⟩
      | .err e => ⟨none, some e, ⟨st.closed, false, none⟩, true⟩

/-- Result of one `g_file_enumerator_close` call: the returned `gboolean`,
the caller's error location, the session state after the call, and
whether the backend `close` was delegated to. -/
structure CloseResult where
  ret : Bool
  err : Option GError
  state : EnumState
  backendInvoked : Bool
deriving DecidableEq

/-- `g_file_enumerator_close` (gfileenumerator.c lines 179-213): returns
`TRUE` at once when already closed; returns `FALSE` with `pendingError`
when pending; otherwise sets `pending`, invokes the backend `close`
(which writes its error, if any, through the caller's error location),
clears `pending`, sets `closed` — and returns `TRUE` unconditionally: the
source discards the backend's boolean result (line 205) and falls through
to `return TRUE` (line 212).  `backendCloseErr` is the error the backend
close would report (`none` when it succeeds). -/
def g_file_enumerator_close (st : EnumState) (backendCloseErr : Option GError) :
    CloseResult :=
  if st.closed then ⟨true, none, st, false⟩
  else if st.pending then ⟨false, some pendingError, st, false⟩
  else ⟨true, backendCloseErr, ⟨true, false, st.outstanding_error⟩, true⟩

/-- `g_file_enumerator_set_pending` (gfileenumerator.c lines 476-483). -/
def g_file_enumerator_set_pending (st : EnumState) (p : Bool) : EnumState :=
  ⟨st.closed, p, st.outstanding_error⟩

/-- The source tag of a `GSimpleAsyncResult` (a function pointer in the
source).  `nextFilesAsyncPub` is the tag `g_file_enumerator_next_files_async`
used for the zero-count no-op; `realNextFilesAsync` and `realCloseAsync`
are the tags of the default worker implementations; `nullTag` stands for
the `NULL` tag of results created by `g_simple_async_report_error_in_idle`. -/
inductive SourceTag where
  | nextFilesAsyncPub
  | realNextFilesAsync
  | realCloseAsync
  | nullTag
deriving DecidableEq

/-- A `GSimpleAsyncResult` as this file uses it: its source tag, the error
stored on it (if any), and the batch payload `op->files` (the `GList`
built by `g_list_prepend`, head = most recently retrieved entry). -/
structure SimpleAsyncResult where
  tag : SourceTag
  error : Option GError
  files : List Entry
deriving DecidableEq

/-- The immediate effect of issuing an async call: either a completion was
scheduled in idle (`g_simple_async_result_complete_in_idle` /
`g_simple_async_report_error_in_idle`) carrying the given result — never
invoked inline within the issuing call — or a worker job was submitted to
the scheduler. -/
inductive AsyncIssue where
  | idleCompletion (r : SimpleAsyncResult)
  | workerStarted
deriving DecidableEq

/-- `g_file_enumerator_next_files_async` (gfileenumerator.c lines
254-307): the `num_files == 0` check comes first and schedules an idle
completion tagged with the public function; then the `closed` and
`pending` guards each schedule an idle error completion; otherwise
`pending` is set, the callback stored, a reference taken, and the default
worker implementation started.  Returns the immediate effect and the
session state as the call returns. -/
def g_file_enumerator_next_files_async (st : EnumState) (num_files : Nat) :
    AsyncIssue × EnumState :=
  if num_files = 0 then (.idleCompletion ⟨.nextFilesAsyncPub, none, []⟩, st)
  else if st.closed then (.idleCompletion ⟨.nullTag, some closedError, []⟩, st)
  else if st.pending then (.idleCompletion ⟨.nullTag, some pendingError, []⟩, st)
  else (.workerStarted, ⟨st.closed, true, st.outstanding_error⟩)

/-- `g_file_enumerator_close_async` (gfileenumerator.c lines 369-407):
`closed` and `pending` guards schedule idle error completions; otherwise
`pending` is set and the default close worker started. -/
def g_file_enumerator_close_async (st : EnumState) : AsyncIssue × EnumState :=
  if st.closed then (.idleCompletion ⟨.nullTag, some closedError, []⟩, st)
  else if st.pending then (.idleCompletion ⟨.nullTag, some pendingError, []⟩, st)
  else (.workerStarted, ⟨st.closed, true, st.outstanding_error⟩)

/-- One iteration's outcome inside `next_files_thread`: if the cancellable
is cancelled at this check, `g_cancellable_set_error_if_cancelled` sets a
cancellation error and the backend is not called; otherwise the backend
`next_file` outcome for this iteration is used. -/
def thread_step (backend : Nat → NextFileResult) (cancelled : Nat → Bool)
    (i : Nat) : NextFileResult :=
  if cancelled i then .err cancelledError else backend i

/-- State of `next_files_thread` when the job function returns:
`op_files` is `op->files` (prepend-built, head = latest entry),
`outstanding` is the session's `outstanding_error` slot, and
`local_error` is the job's local `error` variable at return — the source
never stores it on the async result, so a non-`none` value here is simply
leaked (the `i == 0` failure path). -/
structure NextFilesThreadResult where
  op_files : List Entry
  outstanding : Option GError
  local_error : Option GError
deriving DecidableEq

/-- The `for (i = 0; i < op->num_files; i++)` loop of `next_files_thread`
(gfileenumerator.c lines 507-531), as a recursion on the remaining
iteration count.  On an entry, prepend it and continue.  On `NULL` with no
error (end of enumeration), stop.  On an error at `i > 0`: free it if it
is a cancellation error, else store it in `outstanding_error`; either way
the local error is nulled.  On an error at `i == 0`: stop with the local
error still set (the source then returns without storing it anywhere). -/
def next_files_loop (backend : Nat → NextFileResult) (cancelled : Nat → Bool) :
    Nat → Nat → List Entry → Option GError → NextFilesThreadResult
  | _, 0, files, outst => ⟨files, outst, none⟩
  | i, rem + 1, files, outst =>
    match thread_step backend cancelled i with
    | .entry x => next_files_loop backend cancelled (i + 1) rem (x :: files) outst
    | .endOfEnum => ⟨files, outst, none⟩
    | .err e =>
      if 0 < i then
        if e.domain = G_IO_ERROR ∧ e.code = G_IO_ERROR_CANCELLED then
          ⟨files, outst, none⟩
        else ⟨files, some e, none⟩
      else ⟨files, outst, some e⟩

/-- `next_files_thread` (gfileenumerator.c lines 490-532) run on a session
whose `outstanding_error` slot holds `outstanding`. -/
def next_files_thread (num_files : Nat) (backend : Nat → NextFileResult)
    (cancelled : Nat → Bool) (outstanding : Option GError) :
    NextFilesThreadResult :=
  next_files_loop backend cancelled 0 num_files [] outstanding

/-- A complete default-path `next_files_async` round trip: issue the call
(`g_file_enumerator_next_files_async`); if a completion was scheduled in
idle, that completion is delivered with the session state unchanged;
otherwise `g_file_enumerator_real_next_files_async` runs
`next_files_thread` in a worker thread and the completion is delivered
through `next_async_callback_wrapper` (gfileenumerator.c lines 215-226),
which clears `pending`.  Returns the `GSimpleAsyncResult` handed to the
caller's callback and the session state at completion.  The thread never
stores an error on the result, so the result's error field is `none` on
the worker path. -/
def run_next_files_async (st : EnumState) (num_files : Nat)
    (backend : Nat → NextFileResult) (cancelled : Nat → Bool) :
    SimpleAsyncResult × EnumState :=
  match g_file_enumerator_next_files_async st num_files with
  | (.idleCompletion r, st2) => (r, st2)
  | (.workerStarted, st2) =>
    let t := next_files_thread num_files backend cancelled st2.outstanding_error
    (⟨.realNextFilesAsync, none, t.op_files⟩, ⟨st2.closed, false, t.outstanding⟩)

/-- A complete default-path `close_async` round trip: `close_async_thread`
(gfileenumerator.c lines 574-595) invokes the backend `close` ignoring
cancellation and stores the backend's error, if any, on the result;
`close_async_callback_wrapper` (lines 346-358) then clears `pending` and
sets `closed` regardless of the outcome. -/
def run_close_async (st : EnumState) (backendCloseErr : Option GError) :
    SimpleAsyncResult × EnumState :=
  match g_file_enumerator_close_async st with
  | (.idleCompletion r, st2) => (r, st2)
  | (.workerStarted, st2) =>
    (⟨.realCloseAsync, backendCloseErr, []⟩, ⟨true, false, st2.outstanding_error⟩)

/-- Result of a `next_files_finish` call: the returned `GList` of entries
and the caller's error location. -/
structure FinishResult where
  files : List Entry
  err : Option GError
deriving DecidableEq

/-- `g_file_enumerator_real_next_files_finish` (gfileenumerator.c lines
558-572): `g_assert`s that the source tag is the default worker
implementation (modelled as `none` — a fatal programming error — on a
mismatch), then returns `op->files` as is, with no error. -/
def g_file_enumerator_real_next_files_finish (r : SimpleAsyncResult) :
    Option FinishResult :=
  if r.tag = .realNextFilesAsync then some ⟨r.files, none⟩ else none

/-- `g_file_enumerator_next_files_finish` (gfileenumerator.c lines
320-344): first propagates an error stored on the simple result; then the
special case for the zero-count no-op tag returns `NULL` (the empty list)
with no error; otherwise delegates to the class `next_files_finish`
(the default `g_file_enumerator_real_next_files_finish`). -/
def g_file_enumerator_next_files_finish (r : SimpleAsyncResult) :
    Option FinishResult :=
  match r.error with
  | some e => some ⟨[], some e⟩
  | none =>
    if r.tag = .nextFilesAsyncPub then some ⟨[], none⟩
    else g_file_enumerator_real_next_files_finish r

/-- `g_file_enumerator_close_finish` (gfileenumerator.c lines 420-440):
propagates an error stored on the simple result (returning `FALSE`),
otherwise delegates to `g_file_enumerator_real_close_finish`, which
`g_assert`s the tag and returns `TRUE`. -/
def g_file_enumerator_close_finish (r : SimpleAsyncResult) :
    Option (Bool × Option GError) :=
  match r.error with
  | some e => some (false, some e)
  | none => if r.tag = .realCloseAsync then some (true, none) else none

/-- Claim C1 (code evaluated at the failing input): on an open,
non-pending session whose backend close fails with error `(2, 5)`, the
synchronous `g_file_enumerator_close` delegates to the backend
(`backendInvoked = true`), sets `closed` and clears `pending` regardless
of the outcome, passes the backend's error through the caller's error
location — and still returns `TRUE`, not `FALSE` as the claim (and the
function's own doc comment, "TRUE on success or FALSE on error") states:
the source discards the backend's result and returns `TRUE`
unconditionally. -/
theorem C1_close_returns_true_despite_backend_failure :
    g_file_enumerator_close ⟨false, false, none⟩ (some ⟨2, 5⟩) =
      ⟨true, some ⟨2, 5⟩, ⟨true, false, none⟩, true⟩ := rfl

/-- Claim C3 (code evaluated at the failing input): a default-path batch
of 2 on a fresh session with a backend that yields entry `1` then entry
`2` completes with `op->files = [2, 1]` and the finish call returns
`[2, 1]` — the reverse of the retrieval order `[1, 2]`, because
`next_files_thread` builds the list with `g_list_prepend` and
`g_file_enumerator_real_next_files_finish` returns it without reversing. -/
theorem C3_batch_returns_reverse_retrieval_order :
    run_next_files_async ⟨false, false, none⟩ 2
        (fun i => NextFileResult.entry (i + 1)) (fun _ => false) =
      (⟨SourceTag.realNextFilesAsync, none, [2, 1]⟩, ⟨false, false, none⟩) ∧
    g_file_enumerator_next_files_finish
        (run_next_files_async ⟨false, false, none⟩ 2
          (fun i => NextFileResult.entry (i + 1)) (fun _ => false)).1 =
      some ⟨[2, 1], none⟩ := ⟨rfl, rfl⟩

/-- Claim C4 (code evaluated at the failing input): when the batch worker
fails on its very first iteration (`i == 0`) with a non-cancellation
error `(2, 5)`, the error is NOT stored on the async operation: the
operation completes with no error and no entries, the finish call returns
an empty list with no error, nothing is deferred, and the thread's local
error variable still holds the error when the job returns (it is leaked),
contrary to the claim that the finish call returns that error. -/
theorem C4_first_iteration_error_is_dropped :
    run_next_files_async ⟨false, false, none⟩ 3
        (fun _ => NextFileResult.err ⟨2, 5⟩) (fun _ => false) =
      (⟨SourceTag.realNextFilesAsync, none, []⟩, ⟨false, false, none⟩) ∧
    g_file_enumerator_next_files_finish
        (run_next_files_async ⟨false, false, none⟩ 3
          (fun _ => NextFileResult.err ⟨2, 5⟩) (fun _ => false)).1 =
      some ⟨[], none⟩ ∧
    (next_files_thread 3 (fun _ => NextFileResult.err ⟨2, 5⟩)
        (fun _ => false) none).local_error = some ⟨2, 5⟩ :=
  ⟨rfl, rfl, rfl⟩

/-- Claim C9: a `next_files_async` call with `num_files = 0` never starts
the worker job: on every session state it schedules an idle completion
(never inline) tagged `g_file_enumerator_next_files_async` (the no-op
kind) with no error, leaves the state untouched, and the matching finish
call on that result returns an empty sequence with no error. -/
theorem C9_zero_count_completes_in_idle (st : EnumState) :
    g_file_enumerator_next_files_async st 0 =
      (.idleCompletion ⟨.nextFilesAsyncPub, none, []⟩, st) ∧
    g_file_enumerator_next_files_finish ⟨.nextFilesAsyncPub, none, []⟩ =
      some ⟨[], none⟩ := ⟨rfl, rfl⟩

/-- Claim C10: the `num_files == 0` check precedes the `closed` and
`pending` guards, so for every combination of `closed`, `pending` and
deferred-error slot the zero-count call completes successfully with an
empty sequence — never `closedError` or `pendingError` — and the session
state, the deferred slot included, is returned exactly as it was. -/
theorem C10_zero_count_bypasses_guards (c p : Bool) (d : Option GError) :
    g_file_enumerator_next_files_async ⟨c, p, d⟩ 0 =
      (.idleCompletion ⟨.nextFilesAsyncPub, none, []⟩, ⟨c, p, d⟩) ∧
    g_file_enumerator_next_files_finish ⟨.nextFilesAsyncPub, none, []⟩ =
      some ⟨[], none⟩ ∧
    (⟨SourceTag.nextFilesAsyncPub, none, []⟩ : SimpleAsyncResult).error ≠
      some closedError ∧
    (⟨SourceTag.nextFilesAsyncPub, none, []⟩ : SimpleAsyncResult).error ≠
      some pendingError := ⟨rfl, rfl, by simp, by simp⟩

/-- Running the batch loop over `k` consecutive successful entries:
as long as `thread_step` yields an entry at each of the indices
`i, i+1, ..., i+k-1`, the loop prepends them and continues from `i + k`. -/
theorem next_files_loop_entries (backend : Nat → NextFileResult)
    (cancelled : Nat → Bool) (x : Nat → Entry) :
    ∀ (k i rem : Nat) (files : List Entry) (outst : Option GError),
      (∀ j, j < k →
        thread_step backend cancelled (i + j) = NextFileResult.entry (x (i + j))) →
      next_files_loop backend cancelled i (k + rem) files outst =
        next_files_loop backend cancelled (i + k) rem
          (((List.range' i k).map x).reverse ++ files) outst := by
  intro k
  induction k with
  | zero =>
      intro i rem files outst _h
      simp [List.range']
  | succ k ih =>
      intro i rem files outst h
      have hstep : thread_step backend cancelled i = NextFileResult.entry (x i) := by
        have h0 := h 0 (Nat.succ_pos k)
        simpa using h0
      have harith : k + 1 + rem = k + rem + 1 := by omega
      rw [harith]
      have hrec := ih (i + 1) rem (x i :: files) outst (by
        intro j hj
        have hh := h (j + 1) (by omega)
        have hi : i + (j + 1) = i + 1 + j := by omega
        rwa [hi] at hh)
      calc next_files_loop backend cancelled i (k + rem + 1) files outst
          = next_files_loop backend cancelled (i + 1) (k + rem) (x i :: files) outst := by
            simp [next_files_loop, hstep]
        _ = next_files_loop backend cancelled (i + 1 + k) rem
              (((List.range' (i + 1) k).map x).reverse ++ (x i :: files)) outst := hrec
        _ = next_files_loop backend cancelled (i + (k + 1)) rem
              (((List.range' i (k + 1)).map x).reverse ++ files) outst := by
            have hik : i + 1 + k = i + (k + 1) := by omega
            rw [hik, List.range'_succ]
            simp

/-- A batch worker run that retrieves `k` entries (`0 < k`) and then fails
at iteration `k < num`: the collected entries are the `k` retrieved ones
in prepend order, the job stores nothing on the result, and the failure is
stored in `outstanding_error` unless it is a cancellation error, in which
case it is discarded. -/
theorem next_files_thread_fail_after (backend : Nat → NextFileResult)
    (cancelled : Nat → Bool) (x : Nat → Entry) (num k : Nat) (e : GError)
    (outst : Option GError) (hk : 0 < k) (hkn : k < num)
    (hpre : ∀ j, j < k →
      thread_step backend cancelled j = NextFileResult.entry (x j))
    (hfail : thread_step backend cancelled k = NextFileResult.err e) :
    next_files_thread num backend cancelled outst =
      if e.domain = G_IO_ERROR ∧ e.code = G_IO_ERROR_CANCELLED then
        ⟨((List.range k).map x).reverse, outst, none⟩
      else ⟨((List.range k).map x).reverse, some e, none⟩ := by
  obtain ⟨m, rfl⟩ : ∃ m, num = k + (m + 1) := ⟨num - k - 1, by omega⟩
  unfold next_files_thread
  rw [next_files_loop_entries backend cancelled x k 0 (m + 1) [] outst
    (by intro j hj; simpa using hpre j hj)]
  rw [Nat.zero_add]
  rw [next_files_loop]
  rw [hfail]
  simp only [hk, if_true, List.range_eq_range', List.append_nil]

/-- Claim C2, counterexample: a session whose deferred-error slot holds
`(2, 5)` is issued an asynchronous batch of 1 whose backend yields entry
`7` — this "very next operation" completes with the entry and NO error,
and the deferred-error slot is still `(2, 5)` afterwards: the
asynchronous path never checks `outstanding_error`, so the deferred error
is not surfaced by a next asynchronous batch, contrary to the claim. -/
theorem C2_async_batch_does_not_surface_deferred_error :
    run_next_files_async ⟨false, false, some ⟨2, 5⟩⟩ 1
        (fun _ => NextFileResult.entry 7) (fun _ => false) =
      (⟨SourceTag.realNextFilesAsync, none, [7]⟩, ⟨false, false, some ⟨2, 5⟩⟩) ∧
    g_file_enumerator_next_files_finish
        (run_next_files_async ⟨false, false, some ⟨2, 5⟩⟩ 1
          (fun _ => NextFileResult.entry 7) (fun _ => false)).1 =
      some ⟨[7], none⟩ := ⟨rfl, rfl⟩

/-- Claim C2, amended: when a default-path batch on a fresh open session
retrieves `k` entries (`0 < k`) and then fails at iteration `k < num`
with a non-cancellation error `e`, the batch completes with the collected
entries and no error and stores `e` as the session's deferred error; the
next SYNCHRONOUS `g_file_enumerator_next_file` call surfaces `e`
verbatim without invoking the backend and clears the slot, so the error
is never re-delivered (asynchronous batches do not check the slot — see
the counterexample). -/
theorem C2_deferred_error_surfaced_by_next_sync_call
    (num k : Nat) (backend : Nat → NextFileResult) (cancelled : Nat → Bool)
    (x : Nat → Entry) (e : GError) (b : NextFileResult)
    (hk : 0 < k) (hkn : k < num)
    (hpre : ∀ j, j < k →
      thread_step backend cancelled j = NextFileResult.entry (x j))
    (hfail : thread_step backend cancelled k = NextFileResult.err e)
    (hnc : ¬(e.domain = G_IO_ERROR ∧ e.code = G_IO_ERROR_CANCELLED)) :
    run_next_files_async ⟨false, false, none⟩ num backend cancelled =
      (⟨SourceTag.realNextFilesAsync, none, ((List.range k).map x).reverse⟩,
       ⟨false, false, some e⟩) ∧
    g_file_enumerator_next_files_finish
        (run_next_files_async ⟨false, false, none⟩ num backend cancelled).1 =
      some ⟨((List.range k).map x).reverse, none⟩ ∧
    g_file_enumerator_next_file ⟨false, false, some e⟩ b =
      ⟨none, some e, ⟨false, false, none⟩, false⟩ := by
  have ht := next_files_thread_fail_after backend cancelled x num k e none hk hkn
    hpre hfail
  rw [if_neg hnc] at ht
  have hnum : num ≠ 0 := by omega
  refine ⟨?_, ?_, ?_⟩
  · simp [run_next_files_async, g_file_enumerator_next_files_async, hnum, ht]
  · simp [run_next_files_async, g_file_enumerator_next_files_async, hnum, ht,
      g_file_enumerator_next_files_finish, g_file_enumerator_real_next_files_finish]
  · simp [g_file_enumerator_next_file]

/-- Witness for the amended C2 theorem at `num = 2`, `k = 1`, a backend
that yields entry `7` then fails with `(2, 5)`, and no cancellation. -/
theorem C2_deferred_error_surfaced_by_next_sync_call_witness :
    run_next_files_async ⟨false, false, none⟩ 2
        (fun j => if j = 0 then NextFileResult.entry 7 else NextFileResult.err ⟨2, 5⟩)
        (fun _ => false) =
      (⟨SourceTag.realNextFilesAsync, none, [7]⟩, ⟨false, false, some ⟨2, 5⟩⟩) ∧
    g_file_enumerator_next_files_finish
        (run_next_files_async ⟨false, false, none⟩ 2
          (fun j => if j = 0 then NextFileResult.entry 7 else NextFileResult.err ⟨2, 5⟩)
          (fun _ => false)).1 =
      some ⟨[7], none⟩ ∧
    g_file_enumerator_next_file ⟨false, false, some ⟨2, 5⟩⟩ NextFileResult.endOfEnum =
      ⟨none, some ⟨2, 5⟩, ⟨false, false, none⟩, false⟩ :=
  C2_deferred_error_surfaced_by_next_sync_call 2 1
    (fun j => if j = 0 then NextFileResult.entry 7 else NextFileResult.err ⟨2, 5⟩)
    (fun _ => false) (fun _ => 7) ⟨2, 5⟩ NextFileResult.endOfEnum
    (by decide) (by decide) (by decide) (by decide) (by decide)

/-- Claim C5: when a default-path batch on a fresh open session retrieves
`k` entries (`0 < k`) and then hits a cancellation error at iteration
`k < num`, the error is discarded entirely: the operation completes with
the entries collected so far and no error, the deferred-error slot stays
empty, the session returns to its open, non-pending state, and a
subsequent synchronous call goes straight to the backend (observes no
trace of the cancellation). -/
theorem C5_mid_batch_cancellation_discarded
    (num k : Nat) (backend : Nat → NextFileResult) (cancelled : Nat → Bool)
    (x : Nat → Entry) (e : GError) (b : NextFileResult)
    (hk : 0 < k) (hkn : k < num)
    (hpre : ∀ j, j < k →
      thread_step backend cancelled j = NextFileResult.entry (x j))
    (hfail : thread_step backend cancelled k = NextFileResult.err e)
    (hcancel : e.domain = G_IO_ERROR ∧ e.code = G_IO_ERROR_CANCELLED) :
    run_next_files_async ⟨false, false, none⟩ num backend cancelled =
      (⟨SourceTag.realNextFilesAsync, none, ((List.range k).map x).reverse⟩,
       ⟨false, false, none⟩) ∧
    g_file_enumerator_next_files_finish
        (run_next_files_async ⟨false, false, none⟩ num backend cancelled).1 =
      some ⟨((List.range k).map x).reverse, none⟩ ∧
    (g_file_enumerator_next_file ⟨false, false, none⟩ b).backendInvoked = true := by
  have ht := next_files_thread_fail_after backend cancelled x num k e none hk hkn
    hpre hfail
  rw [if_pos hcancel] at ht
  have hnum : num ≠ 0 := by omega
  refine ⟨?_, ?_, ?_⟩
  · simp [run_next_files_async, g_file_enumerator_next_files_async, hnum, ht]
  · simp [run_next_files_async, g_file_enumerator_next_files_async, hnum, ht,
      g_file_enumerator_next_files_finish, g_file_enumerator_real_next_files_finish]
  · cases b <;> simp [g_file_enumerator_next_file]

/-- Witness for C5 at `num = 2`, `k = 1`, a backend that yields entry `7`
and a cancellable that trips at the second iteration's check. -/
theorem C5_mid_batch_cancellation_discarded_witness :
    run_next_files_async ⟨false, false, none⟩ 2
        (fun _ => NextFileResult.entry 7) (fun j => j == 1) =
      (⟨SourceTag.realNextFilesAsync, none, [7]⟩, ⟨false, false, none⟩) ∧
    g_file_enumerator_next_files_finish
        (run_next_files_async ⟨false, false, none⟩ 2
          (fun _ => NextFileResult.entry 7) (fun j => j == 1)).1 =
      some ⟨[7], none⟩ ∧
    (g_file_enumerator_next_file ⟨false, false, none⟩
      NextFileResult.endOfEnum).backendInvoked = true :=
  C5_mid_batch_cancellation_discarded 2 1
    (fun _ => NextFileResult.entry 7) (fun j => j == 1) (fun _ => 7)
    cancelledError NextFileResult.endOfEnum
    (by decide) (by decide) (by decide) (by decide) (by decide)

/-- Claim C6: synchronous close is idempotent.  On an open, non-pending
session the first `g_file_enumerator_close` delegates to the backend;
calling it again on the resulting state returns `TRUE` with no error,
does not invoke the backend, and leaves the state untouched — so two
sequential close calls delegate to the backend exactly once. -/
theorem C6_close_idempotent (st : EnumState) (e1 e2 : Option GError)
    (hc : st.closed = false) (hp : st.pending = false) :
    (g_file_enumerator_close st e1).backendInvoked = true ∧
    (g_file_enumerator_close st e1).ret = true ∧
    g_file_enumerator_close (g_file_enumerator_close st e1).state e2 =
      ⟨true, none, (g_file_enumerator_close st e1).state, false⟩ := by
  simp [g_file_enumerator_close, hc, hp]

/-- Witness for C6 on a fresh session with a succeeding backend close. -/
theorem C6_close_idempotent_witness :
    (g_file_enumerator_close ⟨false, false, none⟩ none).backendInvoked = true ∧
    (g_file_enumerator_close ⟨false, false, none⟩ none).ret = true ∧
    g_file_enumerator_close (g_file_enumerator_close ⟨false, false, none⟩ none).state none =
      ⟨true, none, (g_file_enumerator_close ⟨false, false, none⟩ none).state, false⟩ :=
  C6_close_idempotent ⟨false, false, none⟩ none none rfl rfl

/-- Claim C7, counterexample: on a session with `pending = true`, a
`next_files_async` call with `num_files = 0` does NOT complete with
`pendingError` — the zero-count check precedes the pending guard, so it
schedules a successful no-op completion with no error. -/
theorem C7_zero_count_ignores_pending :
    g_file_enumerator_next_files_async ⟨false, true, none⟩ 0 =
      (.idleCompletion ⟨.nextFilesAsyncPub, none, []⟩, ⟨false, true, none⟩) := rfl

/-- Claim C7, amended: on an open (not closed) session with
`pending = true`, `next_file` and `close` return `pendingError` directly,
and `next_files_async` with a positive count and `close_async` schedule a
`pendingError` completion; in every case the session state — `closed`,
`pending` and the deferred-error slot — is returned unchanged and the
backend is not invoked.  Exceptions forced by the source: a zero-count
`next_files_async` completes successfully instead (see the
counterexample), and on a session that is also closed the closed guard
runs first, so `closedError` (or idempotent success, for `close`) is
returned instead of `pendingError`. -/
theorem C7_pending_blocks_operations (st : EnumState) (n : Nat)
    (b : NextFileResult) (e : Option GError)
    (hp : st.pending = true) (hc : st.closed = false) (hn : 0 < n) :
    g_file_enumerator_next_file st b = ⟨none, some pendingError, st, false⟩ ∧
    g_file_enumerator_close st e = ⟨false, some pendingError, st, false⟩ ∧
    g_file_enumerator_next_files_async st n =
      (.idleCompletion ⟨.nullTag, some pendingError, []⟩, st) ∧
    g_file_enumerator_close_async st =
      (.idleCompletion ⟨.nullTag, some pendingError, []⟩, st) := by
  have hn0 : n ≠ 0 := by omega
  refine ⟨?_, ?_, ?_, ?_⟩
  · simp [g_file_enumerator_next_file, hp, hc]
  · simp [g_file_enumerator_close, hp, hc]
  · simp [g_file_enumerator_next_files_async, hp, hc, hn0]
  · simp [g_file_enumerator_close_async, hp, hc]

/-- Witness for the amended C7 theorem on an open pending session. -/
theorem C7_pending_blocks_operations_witness :
    g_file_enumerator_next_file ⟨false, true, none⟩ NextFileResult.endOfEnum =
      ⟨none, some pendingError, ⟨false, true, none⟩, false⟩ ∧
    g_file_enumerator_close ⟨false, true, none⟩ none =
      ⟨false, some pendingError, ⟨false, true, none⟩, false⟩ ∧
    g_file_enumerator_next_files_async ⟨false, true, none⟩ 5 =
      (.idleCompletion ⟨.nullTag, some pendingError, []⟩, ⟨false, true, none⟩) ∧
    g_file_enumerator_close_async ⟨false, true, none⟩ =
      (.idleCompletion ⟨.nullTag, some pendingError, []⟩, ⟨false, true, none⟩) :=
  C7_pending_blocks_operations ⟨false, true, none⟩ 5 NextFileResult.endOfEnum none
    rfl rfl (by decide)

/-- Claim C8, counterexample: on a closed session, a `next_files_async`
call with `num_files = 0` does NOT return `closedError` — the zero-count
check precedes the closed guard, so it schedules a successful no-op
completion with no error. -/
theorem C8_zero_count_ignores_closed :
    g_file_enumerator_next_files_async ⟨true, false, none⟩ 0 =
      (.idleCompletion ⟨.nextFilesAsyncPub, none, []⟩, ⟨true, false, none⟩) := rfl

/-- Claim C8, amended: `closed` is terminal.  On any closed session,
`next_file` returns `closedError`, synchronous `close` returns `TRUE`
with no error and without invoking the backend, `next_files_async` with a
positive count and `close_async` schedule `closedError` completions — all
leaving the state unchanged — and no operation resets `closed` to
`false`: `set_pending` and complete async round trips all leave `closed`
as `true`.  The one exception forced by the source is a zero-count
`next_files_async`, which completes successfully with an empty sequence
(see the counterexample) while still leaving the session closed. -/
theorem C8_closed_is_terminal (st : EnumState) (n : Nat) (b : NextFileResult)
    (e : Option GError) (p : Bool) (backend : Nat → NextFileResult)
    (cancelled : Nat → Bool) (m : Nat)
    (hc : st.closed = true) (hn : 0 < n) :
    g_file_enumerator_next_file st b = ⟨none, some closedError, st, false⟩ ∧
    g_file_enumerator_close st e = ⟨true, none, st, false⟩ ∧
    g_file_enumerator_next_files_async st n =
      (.idleCompletion ⟨.nullTag, some closedError, []⟩, st) ∧
    g_file_enumerator_close_async st =
      (.idleCompletion ⟨.nullTag, some closedError, []⟩, st) ∧
    (g_file_enumerator_set_pending st p).closed = true ∧
    (run_next_files_async st m backend cancelled).2.closed = true ∧
    (run_close_async st e).2.closed = true := by
  have hn0 : n ≠ 0 := by omega
  refine ⟨?_, ?_, ?_, ?_, ?_, ?_, ?_⟩
  · simp [g_file_enumerator_next_file, hc]
  · simp [g_file_enumerator_close, hc]
  · simp [g_file_enumerator_next_files_async, hc, hn0]
  · simp [g_file_enumerator_close_async, hc]
  · simp [g_file_enumerator_set_pending, hc]
  · rcases Nat.eq_zero_or_pos m with hm | hm
    · subst hm
      simp [run_next_files_async, g_file_enumerator_next_files_async, hc]
    · have hm0 : m ≠ 0 := by omega
      simp [run_next_files_async, g_file_enumerator_next_files_async, hc, hm0]
  · simp [run_close_async, g_file_enumerator_close_async, hc]

/-- Witness for the amended C8 theorem on a closed session. -/
theorem C8_closed_is_terminal_witness :
    g_file_enumerator_next_file ⟨true, false, none⟩ NextFileResult.endOfEnum =
      ⟨none, some closedError, ⟨true, false, none⟩, false⟩ ∧
    g_file_enumerator_close ⟨true, false, none⟩ none =
      ⟨true, none, ⟨true, false, none⟩, false⟩ ∧
    g_file_enumerator_next_files_async ⟨true, false, none⟩ 5 =
      (.idleCompletion ⟨.nullTag, some closedError, []⟩, ⟨true, false, none⟩) ∧
    g_file_enumerator_close_async ⟨true, false, none⟩ =
      (.idleCompletion ⟨.nullTag, some closedError, []⟩, ⟨true, false, none⟩) ∧
    (g_file_enumerator_set_pending ⟨true, false, none⟩ true).closed = true ∧
    (run_next_files_async ⟨true, false, none⟩ 3
      (fun _ => NextFileResult.entry 7) (fun _ => false)).2.closed = true ∧
    (run_close_async ⟨true, false, none⟩ none).2.closed = true :=
  C8_closed_is_terminal ⟨true, false, none⟩ 5 NextFileResult.endOfEnum none true
    (fun _ => NextFileResult.entry 7) (fun _ => false) 3 rfl (by decide)
